import Mathlib

/-!
Verification development for the traccarclientweb location-forwarding
pipeline: a shallow embedding of the background service worker
(public/traccar-service-worker.js), the page-side start gate and
localStorage persistence (src/app/page.tsx), the server action
(src/app/actions.ts) and the API route (src/app/api/log-traccar/route.ts),
together with theorems about the throttling, in-flight-guard, error
handling and persistence behaviour of that code.

Conventions of the embedding:
* JavaScript numbers that only ever hold integral millisecond timestamps,
  interval seconds or HTTP status codes are modelled as Int / Nat.
* Floating point coordinate values never influence control flow in the
  modelled code, so they are carried as Int placeholders.
* The asynchronous fetch performed by a delivery call is modelled by an
  explicit environment value (FetchOutcome / UpstreamOutcome) describing
  how the network round trip ended.
* Messages posted to the window clients are collected in a list, in
  emission order.
-/

/-- Message payloads the service worker posts to its window clients
(the four `type` discriminants used in traccar-service-worker.js). -/
inductive Msg where
  | status (message : String)
  | success (message : String)
  | error (message : String)
  | trackingStatus (isTracking : Bool) (message : String)
deriving DecidableEq, Repr

/-- Discriminant test: is this a `status`-typed message? -/
def Msg.isStatus : Msg → Bool
  | Msg.status _ => true
  | _ => false

/-- Discriminant test: is this a terminal (`success` or `error`) message? -/
def Msg.isTerminal : Msg → Bool
  | Msg.success _ => true
  | Msg.error _ => true
  | _ => false

/-- Discriminant test: a `tracking_status` message (with either flag). -/
def Msg.isTrackingStatus : Msg → Bool
  | Msg.trackingStatus _ _ => true
  | _ => false

/-- The worker-held configuration object (`config` module global in
traccar-service-worker.js): deviceId, serverUrl, intervalSeconds. -/
structure SWConfig where
  deviceId : String
  serverUrl : String
  intervalSeconds : Int
deriving DecidableEq, Repr

/-- The mutable module-level state of the service worker:
`watchId`, `config`, `isCurrentlyTracking`, `lastAttemptedSendTimestamp`
and `isSendingLocationData` (the in-flight semaphore). -/
structure SWState where
  watchId : Option Nat
  config : SWConfig
  isCurrentlyTracking : Bool
  lastAttemptedSendTimestamp : Int
  isSendingLocationData : Bool
deriving DecidableEq, Repr

/-- A GeolocationPosition's `coords` member, optional members modelled as
`Option` (JavaScript `null` becomes `none`). -/
structure Coords where
  latitude : Int
  longitude : Int
  accuracy : Option Int
  altitude : Option Int
  speed : Option Int
  heading : Option Int
deriving DecidableEq, Repr

/-- A GeolocationPosition: coords plus millisecond acquisition timestamp. -/
structure Position where
  coords : Coords
  timestamp : Int
deriving DecidableEq, Repr

/-- The JSON body the worker POSTs to /api/log-traccar (`dataToSend`). -/
structure LocationData where
  serverUrl : String
  deviceId : String
  lat : Int
  lon : Int
  timestamp : Int
  accuracy : Option Int
  altitude : Option Int
  speed : Option Int
  bearing : Option Int
deriving DecidableEq, Repr

/-- `Math.round(ts / 1000)` on an integral millisecond timestamp:
floor of ts/1000 + 1/2, computed exactly over Int. -/
def jsRound1000 (ts : Int) : Int := Int.fdiv (2 * ts + 1000) 2000

/-- Construction of `dataToSend` in handlePositionUpdate: optional coords
members are included only under the source's null / non-negativity
conditions, and `heading` is renamed to `bearing`. -/
def buildDataToSend (c : SWConfig) (pos : Position) : LocationData :=
  { serverUrl := c.serverUrl
    deviceId := c.deviceId
    lat := pos.coords.latitude
    lon := pos.coords.longitude
    timestamp := jsRound1000 pos.timestamp
    accuracy := match pos.coords.accuracy with
      | some a => if 0 ≤ a then some a else none
      | none => none
    altitude := pos.coords.altitude
    speed := match pos.coords.speed with
      | some v => if 0 ≤ v then some v else none
      | none => none
    bearing := match pos.coords.heading with
      | some h => if 0 ≤ h then some h else none
      | none => none }

/-- The parsed JSON body of the /api/log-traccar response as read by the
worker (`resultJson`), together with the HTTP response envelope. -/
structure ApiResponse where
  ok : Bool
  status : Nat
  success : Bool
  message : Option String
deriving DecidableEq, Repr

/-- How the worker's fetch of /api/log-traccar ends: a response whose JSON
body was parsed, or a thrown error (network failure or unparsable body),
which lands in the catch block. -/
inductive FetchOutcome where
  | response (r : ApiResponse)
  | networkError (errMessage : String)
deriving DecidableEq, Repr

/-- The first, synchronous phase of callLogTraccarApi: the in-flight guard
check and, when it passes, setting `isSendingLocationData = true`. The
Bool reports whether the fetch is issued. -/
def deliveryBegin (s : SWState) : SWState × Bool :=
  if s.isSendingLocationData = true then (s, false)
  else ({ s with isSendingLocationData := true }, true)

/-- The continuation of callLogTraccarApi after the fetch settles:
the response branch posts one success or error message, the catch branch
posts one error message, and the finally clause clears the semaphore. -/
def deliveryComplete (s : SWState) (o : FetchOutcome) : SWState × List Msg :=
  match o with
  | FetchOutcome.response r =>
    if r.ok && r.success then
      ({ s with isSendingLocationData := false },
       [Msg.success ("[SW] " ++ r.message.getD "Dados enviados com sucesso pela API.")])
    else
      ({ s with isSendingLocationData := false },
       [Msg.error ("[SW] API retornou erro (HTTP " ++ toString r.status ++ "): "
          ++ r.message.getD "Erro desconhecido da API.")])
  | FetchOutcome.networkError m =>
      ({ s with isSendingLocationData := false },
       [Msg.error ("[SW] Erro de rede ao chamar API: " ++ m)])

/-- callLogTraccarApi as a whole: guard, then the full round trip. The
third component is `some data` exactly when a fetch was issued, carrying
the posted body. -/
def callLogTraccarApi (s : SWState) (d : LocationData) (o : FetchOutcome) :
    SWState × List Msg × Option LocationData :=
  let (s1, proceed) := deliveryBegin s
  if proceed then
    let (s2, msgs) := deliveryComplete s1 o
    (s2, msgs, some d)
  else
    (s1, [], none)

/-- handlePositionUpdate: drop the fix when not tracking or config is
incomplete, drop it inside the throttle window, otherwise stamp
`lastAttemptedSendTimestamp = now`, build `dataToSend` and invoke
callLogTraccarApi. -/
def handlePositionUpdate (s : SWState) (pos : Position) (now : Int) (o : FetchOutcome) :
    SWState × List Msg × Option LocationData :=
  if s.isCurrentlyTracking = false ∨ s.config.deviceId = "" ∨ s.config.serverUrl = "" then
    (s, [], none)
  else if now - s.lastAttemptedSendTimestamp < s.config.intervalSeconds * 1000 then
    (s, [], none)
  else
    let s1 : SWState := { s with lastAttemptedSendTimestamp := now }
    callLogTraccarApi s1 (buildDataToSend s1.config pos) o

/-- stopTrackingLogic: clear the watch, drop the tracking flag, reset the
sending semaphore and post one tracking_status=false broadcast. -/
def stopTrackingLogic (s : SWState) : SWState × List Msg :=
  ({ s with watchId := none, isCurrentlyTracking := false, isSendingLocationData := false },
   [Msg.trackingStatus false "[SW] Rastreamento em segundo plano interrompido."])

/-- handlePositionError, switching on the GeolocationPositionError code
(1 = PERMISSION_DENIED, 2 = POSITION_UNAVAILABLE, 3 = TIMEOUT). Only the
permission-denied case calls stopTrackingLogic; the worker then posts the
(possibly rewritten) error message. -/
def handlePositionError (s : SWState) (code : Nat) (message : String) : SWState × List Msg :=
  if code = 1 then
    let (s1, msgs) := stopTrackingLogic s
    (s1, msgs ++ [Msg.error "[SW] Permissão de localização negada. O rastreamento em segundo plano será interrompido."])
  else if code = 2 then
    (s, [Msg.error "[SW] Posição GPS temporariamente indisponível."])
  else if code = 3 then
    (s, [Msg.error "[SW] Tempo esgotado ao tentar obter a localização GPS."])
  else
    (s, [Msg.error ("[SW] Erro ao obter localização GPS (" ++ toString code ++ "): "
      ++ message ++ ".")])

/-- The geolocation permission states the Permissions API can report. -/
inductive PermissionState where
  | granted
  | prompt
  | denied
deriving DecidableEq, Repr

/-- The worker-side host environment consulted by startTrackingLogic:
whether `geolocation in navigator`, the permission query result, and the
id watchPosition would allocate. -/
structure GeoEnv where
  geolocationSupported : Bool
  permission : PermissionState
  freshWatchId : Nat
deriving DecidableEq, Repr

/-- startTrackingLogic: bail out when geolocation is unsupported or a
watch is already active; otherwise set the tracking flag, reset the
throttle timestamp, and branch on the permission state (granted starts the
watch and broadcasts tracking_status=true; prompt posts an error and still
attempts the watch; denied posts an error, reverts the flag and broadcasts
tracking_status=false). -/
def startTrackingLogic (env : GeoEnv) (s : SWState) : SWState × List Msg :=
  if env.geolocationSupported = false then
    (s, [Msg.error "[SW] Geolocalização não é suportada neste navegador/worker."])
  else if s.watchId.isSome then
    (s, [])
  else
    let s1 : SWState := { s with isCurrentlyTracking := true, lastAttemptedSendTimestamp := 0 }
    match env.permission with
    | PermissionState.granted =>
        ({ s1 with watchId := some env.freshWatchId },
         [Msg.trackingStatus true "[SW] Rastreamento em segundo plano iniciado."])
    | PermissionState.prompt =>
        ({ s1 with watchId := some env.freshWatchId },
         [Msg.error "[SW] Permissão de localização necessária. O navegador pode solicitar agora."])
    | PermissionState.denied =>
        ({ s1 with isCurrentlyTracking := false },
         [Msg.error "[SW] Permissão de localização negada. Não é possível iniciar o rastreamento.",
          Msg.trackingStatus false "[SW] Falha ao iniciar: permissão negada."])

/-- A partial configuration object carried by a command's `data`; absent
keys are `none` and survive the spread-merge unchanged. -/
structure ConfigPatch where
  deviceId : Option String
  serverUrl : Option String
  intervalSeconds : Option Int
deriving DecidableEq, Repr

/-- The spread-merge `config = { ...config, ...data }`. -/
def mergeConfig (c : SWConfig) (d : ConfigPatch) : SWConfig :=
  { deviceId := d.deviceId.getD c.deviceId
    serverUrl := d.serverUrl.getD c.serverUrl
    intervalSeconds := d.intervalSeconds.getD c.intervalSeconds }

/-- The commands a page can post to the worker. `locationUpdate` is sent
by the current page code but the worker's message listener has no branch
for it, so the worker ignores it. -/
inductive Command where
  | startTracking (data : ConfigPatch)
  | stopTracking
  | getStatus
  | updateConfig (data : ConfigPatch)
  | locationUpdate (data : LocationData)
deriving DecidableEq, Repr

/-- The worker's message listener: start-tracking merges the data into the
config then runs startTrackingLogic; stop-tracking runs stopTrackingLogic;
get-status reports the current flag; update-config merges and posts a
status message; any other command (including location-update, which this
worker does not handle) falls through with no effect. -/
def handleMessage (env : GeoEnv) (s : SWState) : Command → SWState × List Msg
  | Command.startTracking d =>
      startTrackingLogic env { s with config := mergeConfig s.config d }
  | Command.stopTracking => stopTrackingLogic s
  | Command.getStatus =>
      (s, [Msg.trackingStatus s.isCurrentlyTracking
        (if s.isCurrentlyTracking then "[SW] Rastreamento ativo." else "[SW] Rastreamento parado.")])
  | Command.updateConfig d =>
      let c2 := mergeConfig s.config d
      ({ s with config := c2 },
       [Msg.status ("[SW] Configuração atualizada: Intervalo para "
          ++ toString c2.intervalSeconds ++ "s.")])
  | Command.locationUpdate _ => (s, [])

/-- Sequential processing of a list of commands by the worker, collecting
the posted messages in order. -/
def processCommands (env : GeoEnv) (s : SWState) : List Command → SWState × List Msg
  | [] => (s, [])
  | c :: cs =>
    let (s1, ms1) := handleMessage env s c
    let (s2, ms2) := processCommands env s1 cs
    (s2, ms1 ++ ms2)

/-!
Page-side model: URL validation, the start-tracking gate of
handleStartTracking, and the localStorage persistence effects
(src/app/page.tsx).
-/

/-- A parsed URL, reduced to the parts the modelled code consults:
the (lowercased) scheme and the authority (host with optional port). -/
structure UrlParts where
  scheme : String
  authority : String
deriving DecidableEq, Repr

/-- `url.protocol`: the lowercased scheme with trailing colon. -/
def UrlParts.protocol (u : UrlParts) : String := u.scheme ++ ":"

/-- `url.origin` for the simple host-port URLs this code handles. -/
def UrlParts.origin (u : UrlParts) : String := u.scheme ++ "://" ++ u.authority

/-- `url.hostname`: the authority up to the port separator. -/
def UrlParts.hostname (u : UrlParts) : String :=
  String.mk (u.authority.toList.takeWhile (fun c => c ≠ ':'))

/-- `url.port`: the authority past the port separator, empty if absent. -/
def UrlParts.port (u : UrlParts) : String :=
  match u.authority.toList.dropWhile (fun c => c ≠ ':') with
  | [] => ""
  | _ :: rest => String.mk rest

/-- Split a character list at the first scheme separator `://`, returning
the characters before it and the characters after it. -/
def splitOnSchemeSep : List Char → Option (List Char × List Char)
  | [] => none
  | c :: rest =>
    if (String.toList "://").isPrefixOf (c :: rest) then some ([], (c :: rest).drop 3)
    else
      match splitOnSchemeSep rest with
      | some (a, b) => some (c :: a, b)
      | none => none

/-- JavaScript String.prototype.trim and the WHATWG URL whitespace
stripping: drop leading and trailing whitespace characters. -/
def trimStr (s : String) : String :=
  String.mk (((s.toList.dropWhile Char.isWhitespace).reverse.dropWhile Char.isWhitespace).reverse)

/-- Lowercase a string character by character (ASCII case folding, which
covers every scheme this code compares against). -/
def lowerStr (s : String) : String := String.mk (s.toList.map Char.toLower)

/-- Model of the WHATWG `new URL(s)` constructor restricted to what the
code consults: succeeds when the string has a nonempty scheme before `://`
and a nonempty remainder, lowercasing the scheme; the authority is the
remainder up to the first slash. -/
def parseUrlModel (s : String) : Option UrlParts :=
  match splitOnSchemeSep s.toList with
  | some (schemeChars, restChars) =>
    if schemeChars.isEmpty || restChars.isEmpty then none
    else some { scheme := lowerStr (String.mk schemeChars)
                authority := String.mk (restChars.takeWhile (fun c => c ≠ '/')) }
  | none => none

/-- page.tsx isValidHttpUrl: `new URL(string)` (which trims outer
whitespace) must succeed and the protocol must be http or https. -/
def isValidHttpUrl (s : String) : Bool :=
  match parseUrlModel (trimStr s) with
  | some u => u.protocol = "http:" || u.protocol = "https:"
  | none => false

/-- The page component state consulted by handleStartTracking. A missing
interval (`NaN` after an empty or unparsable input) is `none`. -/
structure PageState where
  deviceId : String
  serverUrl : String
  intervalSeconds : Option Int
  isServiceWorkerActive : Bool
deriving DecidableEq, Repr

/-- The validation gate at the top of handleStartTracking: device id
must be nonempty after trimming, the server URL nonempty and valid, the
interval an integer at least 1, and the service worker registered. -/
def pageStartHasError (p : PageState) : Bool :=
  (p.deviceId = "" || trimStr p.deviceId = "")
  || (p.serverUrl = "" || trimStr p.serverUrl = "" || !isValidHttpUrl p.serverUrl)
  || (match p.intervalSeconds with
      | none => true
      | some n => decide (n < 1))
  || !p.isServiceWorkerActive

/-- What the page-side geolocation permission flow reports: granted
outright, granted after the one-shot prompt, refused at the prompt, or
denied outright. -/
inductive PagePermission where
  | granted
  | promptGranted
  | promptDenied
  | denied
deriving DecidableEq, Repr

/-- The location payload the page relays to the worker with a
location-update command (page.tsx handlePositionUpdate). -/
def pageLocationPayload (p : PageState) (pos : Position) : LocationData :=
  { serverUrl := p.serverUrl
    deviceId := p.deviceId
    lat := pos.coords.latitude
    lon := pos.coords.longitude
    timestamp := jsRound1000 pos.timestamp
    accuracy := match pos.coords.accuracy with
      | some a => if 0 ≤ a then some a else none
      | none => none
    altitude := pos.coords.altitude
    speed := match pos.coords.speed with
      | some v => if 0 ≤ v then some v else none
      | none => none
    bearing := match pos.coords.heading with
      | some h => if 0 ≤ h then some h else none
      | none => none }

/-- The `data` the page attaches to its start-tracking command. The page
nests the three fields under a `config` key, so none of the top-level
keys the worker spread-merges are present: the patch is empty. -/
def pageStartPayload : ConfigPatch :=
  { deviceId := none, serverUrl := none, intervalSeconds := none }

/-- page.tsx handleStartTracking (together with
requestLocationPermissionAndStartWatcher): a validation failure sends
nothing to the worker; with geolocation support and permission the page
starts its watcher and sends start-tracking, in the prompt flow preceded
by the location-update for the first fix; a refusal sends nothing. -/
def handleStartTracking (p : PageState) (geoSupported : Bool) (perm : PagePermission)
    (pos0 : Position) : List Command :=
  if pageStartHasError p then []
  else if geoSupported = false then []
  else
    match perm with
    | PagePermission.granted => [Command.startTracking pageStartPayload]
    | PagePermission.promptGranted =>
        [Command.locationUpdate (pageLocationPayload p pos0),
         Command.startTracking pageStartPayload]
    | PagePermission.promptDenied => []
    | PagePermission.denied => []

/-!
Persistence model: decimal printing and parsing for the interval, the
localStorage key-value store, and the save / load effects of page.tsx.
-/

/-- The digit character of a decimal digit value. -/
def digitChar10 (d : Nat) : Char := Char.ofNat (48 + d)

/-- Is this character a decimal digit? -/
def isDigitChar (c : Char) : Bool := 48 ≤ c.toNat && c.toNat ≤ 57

/-- The decimal digit value of a digit character. -/
def digitVal (c : Char) : Nat := c.toNat - 48

/-- Decimal rendering of a natural number, as produced by the JavaScript
number-to-string conversion for integral values. -/
def decimalRepr (n : Nat) : String :=
  String.mk (((Nat.digits 10 n).map digitChar10).reverse)

/-- JavaScript `parseInt(s, 10)` restricted to unsigned input: read the
leading run of decimal digits, NaN (`none`) when there is none. -/
def parseIntJS (s : String) : Option Nat :=
  let ds := s.toList.takeWhile isDigitChar
  if ds.isEmpty then none
  else some (Nat.ofDigits 10 ((ds.map digitVal).reverse))

/-- The three localStorage entries used by page.tsx. -/
structure StoredSettings where
  traccarDeviceId : Option String
  traccarServerUrl : Option String
  traccarIntervalSeconds : Option String
deriving DecidableEq, Repr

/-- The three configuration fields the page persists. -/
structure PageConfig where
  deviceId : String
  serverUrl : String
  intervalSeconds : Option Int
deriving DecidableEq, Repr

/-- The default server URL constant of page.tsx. -/
def DEFAULT_SERVER_URL : String := "http://65.21.243.46:5055"

/-- The three save effects of page.tsx: the device id is stored when
nonempty after trimming and removed otherwise; the server URL is stored
only when nonempty and valid (otherwise the stored value is untouched);
the interval is stored in decimal only when an integer at least 1. -/
def saveSettings (c : PageConfig) (st : StoredSettings) : StoredSettings :=
  let st1 := if trimStr c.deviceId ≠ "" then { st with traccarDeviceId := some c.deviceId }
             else { st with traccarDeviceId := none }
  let st2 := if c.serverUrl ≠ "" ∧ trimStr c.serverUrl ≠ "" ∧ isValidHttpUrl c.serverUrl = true
             then { st1 with traccarServerUrl := some c.serverUrl }
             else st1
  match c.intervalSeconds with
  | some n => if 1 ≤ n then { st2 with traccarIntervalSeconds := some (decimalRepr n.toNat) }
              else st2
  | none => st2

/-- The load effect of page.tsx: missing or falsy device id leaves the
empty default; a missing, falsy or invalid server URL falls back to the
default and rewrites the stored entry; a present interval entry is parsed
and replaced by 10 (also rewriting the entry) when not an integer at
least 1. Returns the loaded configuration and the possibly rewritten
store. -/
def loadSettings (st : StoredSettings) : PageConfig × StoredSettings :=
  let deviceId := match st.traccarDeviceId with
    | some d => if d = "" then "" else d
    | none => ""
  let (serverUrl, st1) := match st.traccarServerUrl with
    | some u =>
      if u = "" then (DEFAULT_SERVER_URL, { st with traccarServerUrl := some DEFAULT_SERVER_URL })
      else if isValidHttpUrl u && decide (trimStr u ≠ "") then (u, st)
      else (DEFAULT_SERVER_URL, { st with traccarServerUrl := some DEFAULT_SERVER_URL })
    | none => (DEFAULT_SERVER_URL, { st with traccarServerUrl := some DEFAULT_SERVER_URL })
  let (ival, st2) := match st1.traccarIntervalSeconds with
    | some srep =>
      if srep = "" then ((some 10 : Option Int), st1)
      else
        match parseIntJS srep with
        | some k =>
          if 1 ≤ k then ((some (k : Int) : Option Int), st1)
          else ((some 10 : Option Int), { st1 with traccarIntervalSeconds := some "10" })
        | none => ((some 10 : Option Int), { st1 with traccarIntervalSeconds := some "10" })
    | none => ((some 10 : Option Int), st1)
  ({ deviceId := deviceId, serverUrl := serverUrl, intervalSeconds := ival }, st2)

/-!
Server-side model: the sendTraccarData server action (src/app/actions.ts)
and the /api/log-traccar route handler (src/app/api/log-traccar/route.ts).
-/

/-- The typed input of sendTraccarData (SendTraccarDataInput). -/
structure TraccarInput where
  serverUrl : String
  deviceId : String
  lat : Int
  lon : Int
  timestamp : Int
  accuracy : Option Int
  altitude : Option Int
  speed : Option Int
  bearing : Option Int
deriving DecidableEq, Repr

/-- What the action returns: success flag plus optional message. -/
structure ActionResult where
  success : Bool
  message : Option String
deriving DecidableEq, Repr

/-- How the upstream fetch to the Traccar server ends: an ok response, a
non-ok response (status, statusText and body text), an abort / connect
timeout, a connection error with a cause code, or any other thrown
error. -/
inductive UpstreamOutcome where
  | ok (status : Nat)
  | httpError (status : Nat) (statusText : String) (body : String)
  | abortTimeout
  | connError (code : String) (causeMessage : String)
  | genericError (errMessage : String)
deriving DecidableEq, Repr

/-- Zod schema validation of the action input: the server URL must parse
as a URL and the device id must be nonempty; the error messages are
collected in field order. -/
def schemaErrors (input : TraccarInput) : List String :=
  (if (parseUrlModel input.serverUrl).isSome then [] else ["URL do Servidor inválida."])
  ++ (if input.deviceId = "" then ["ID do Dispositivo é obrigatório."] else [])

/-- The user-facing message the catch block of sendTraccarData builds for
a connection error, branching on the cause code. -/
def connMessage (u : UrlParts) (code : String) (causeMessage : String) : String :=
  if code = "ECONNREFUSED" then
    "Conexão recusada pelo servidor Traccar (" ++ u.origin ++ "). Verifique se o servidor está online e a porta ("
      ++ (if u.port = "" then (if u.protocol = "https:" then "443" else "80") else u.port)
      ++ ") está correta e acessível."
  else if code = "ENOTFOUND" || code = "EAI_AGAIN" then
    "Não foi possível encontrar/resolver o endereço do servidor Traccar (" ++ u.hostname
      ++ "). Verifique se a URL está correta e se o DNS está funcionando no servidor da aplicação."
  else if code = "ECONNRESET" then
    "A conexão foi redefinida inesperadamente pelo servidor Traccar (" ++ u.origin
      ++ "). Isso pode indicar um problema temporário no servidor Traccar ou na rede."
  else if "ERR_TLS_CERT".isPrefixOf code || code = "UNABLE_TO_VERIFY_LEAF_SIGNATURE" then
    "Erro de certificado SSL/TLS ao conectar a " ++ u.origin
      ++ ". Se estiver usando HTTPS com certificado autoassinado, pode ser necessário ajustar configurações (não recomendado para produção) ou usar HTTP."
  else
    "Erro de rede (" ++ (if code = "" then "desconhecido" else code) ++ ") ao conectar a "
      ++ u.origin ++ ". Detalhes: " ++ causeMessage ++ ". Verifique a conectividade e configurações."

/-- sendTraccarData: schema validation, URL parse and protocol check, then
the upstream round trip, every failure path returning success=false with a
descriptive message. The Bool of the pair records whether the upstream
fetch was issued at all. -/
def sendTraccarData (input : TraccarInput) (o : UpstreamOutcome) : ActionResult × Bool :=
  if schemaErrors input ≠ [] then
    ({ success := false
       message := some ("Dados de entrada inválidos: "
         ++ String.intercalate ", " (schemaErrors input)) }, false)
  else
    match parseUrlModel input.serverUrl with
    | none =>
      ({ success := false
         message := some ("URL do Servidor Traccar inválida: " ++ input.serverUrl
           ++ ". Detalhe: URL inválida") }, false)
    | some u =>
      if u.protocol = "http:" || u.protocol = "https:" then
        match o with
        | UpstreamOutcome.ok _ =>
          ({ success := true
             message := some "Localização enviada com sucesso para o servidor Traccar." }, true)
        | UpstreamOutcome.httpError st stText body =>
          let stTextUsed := if stText = "" then "Código " ++ toString st else stText
          ({ success := false
             message := some ("Falha no servidor Traccar (" ++ stTextUsed ++ "). Detalhes: "
               ++ body.take 200) }, true)
        | UpstreamOutcome.abortTimeout =>
          ({ success := false
             message := some ("Tempo esgotado (30s) ao tentar conectar ou receber resposta do servidor Traccar ("
               ++ u.origin
               ++ "). Verifique se o servidor Traccar está online, se a URL está correta e se não há bloqueios de rede/firewall.") },
           true)
        | UpstreamOutcome.connError code causeMessage =>
          ({ success := false, message := some (connMessage u code causeMessage) }, true)
        | UpstreamOutcome.genericError m =>
          ({ success := false
             message := some ("Erro inesperado no servidor: " ++ m
               ++ ". Verifique os logs do servidor da aplicação para mais detalhes.") }, true)
      else
        ({ success := false
           message := some ("URL do Servidor Traccar inválida: " ++ input.serverUrl
             ++ ". Detalhe: Protocolo inválido. A URL deve começar com http:// ou https://") },
         false)

/-- Substring containment over character lists (JavaScript
String.prototype.includes). -/
def containsFrom (p : List Char) : List Char → Bool
  | [] => p.isEmpty
  | c :: rest => p.isPrefixOf (c :: rest) || containsFrom p rest

/-- `s.includes(sub)` (case sensitive). -/
def strContains (s sub : String) : Bool := containsFrom sub.toList s.toList

/-- The scan performed by the regex matching three digits after the word
used in the route's status extraction: at each position of the lowercased
message, try the literal pattern followed by three decimal digits, and
return the three-digit value of the first match. -/
def scanCodigo : List Char → Option Nat
  | [] => none
  | c :: rest =>
    if (String.toList "código ").isPrefixOf (c :: rest) then
      match (c :: rest).drop 7 with
      | d1 :: d2 :: d3 :: _ =>
        if isDigitChar d1 && isDigitChar d2 && isDigitChar d3 then
          some (100 * digitVal d1 + 10 * digitVal d2 + digitVal d3)
        else scanCodigo rest
      | _ => scanCodigo rest
    else scanCodigo rest

/-- First three-digit code following the keyword in the message, matched
case-insensitively as in the route's regex. -/
def findCodigo (m : String) : Option Nat := scanCodigo (lowerStr m).toList

/-- The route's outer regex test: message matches the código-digits
pattern or contains the upstream-failure phrase, case-insensitively. -/
def matchesCodigoOrFalha (m : String) : Bool :=
  (findCodigo m).isSome || strContains (lowerStr m) "falha no servidor traccar"

/-- The status-code classification the route applies to a failed action
result (route.ts lines 39-54): 400 for validation wording, otherwise only
messages passing the código/falha guard are inspected further — an
extracted three-digit code maps 4xx to 400 and 5xx and above to 502, and
without an extracted code a timeout wording maps to 504 — and everything
else stays at the 500 default. -/
def routeStatusForFailure (message : Option String) : Nat :=
  match message with
  | none => 500
  | some m =>
    if strContains m "inválid" || strContains m "obrigatório" then 400
    else if strContains m "Traccar" && matchesCodigoOrFalha m then
      match findCodigo m with
      | some n => if 400 ≤ n ∧ n < 500 then 400 else if 500 ≤ n then 502 else 500
      | none => if strContains (lowerStr m) "tempo esgotado" then 504 else 500
    else 500

/-- The POST handler of /api/log-traccar: unparsable JSON gives 400, a
schema failure gives 400, otherwise the action runs and a success maps to
200 while a failure is classified by routeStatusForFailure. -/
def routePOST (body : Option TraccarInput) (o : UpstreamOutcome) : Nat × ActionResult :=
  match body with
  | none => (400, { success := false, message := some "Corpo da requisição JSON inválido." })
  | some input =>
    if schemaErrors input ≠ [] then
      (400, { success := false
              message := some ("Dados de entrada inválidos para API: "
                ++ String.intercalate ", " (schemaErrors input)) })
    else
      let r := (sendTraccarData input o).1
      if r.success then (200, r) else (routeStatusForFailure r.message, r)

/-- Does the action's validation phase reject the input: a schema error,
an unparsable server URL, or a parsed URL whose protocol is neither http
nor https. -/
def actionValidationFails (input : TraccarInput) : Bool :=
  !(schemaErrors input).isEmpty
  || (match parseUrlModel input.serverUrl with
      | none => true
      | some u => !(decide (u.protocol = "http:") || decide (u.protocol = "https:")))

/-!
Helper lemmas about the delivery call and the position-update handler.
-/

/-- A delivery call finding the semaphore raised changes nothing, posts
nothing and issues no fetch. -/
lemma callLogTraccarApi_skip (s : SWState) (d : LocationData) (o : FetchOutcome)
    (h : s.isSendingLocationData = true) :
    callLogTraccarApi s d o = (s, [], none) := by
  simp [callLogTraccarApi, deliveryBegin, h]

/-- A delivery call finding the semaphore clear issues the fetch, ends
with the semaphore clear, and posts exactly one terminal (non-status)
message. -/
lemma callLogTraccarApi_run (s : SWState) (d : LocationData) (o : FetchOutcome)
    (h : s.isSendingLocationData = false) :
    (callLogTraccarApi s d o).1 = { s with isSendingLocationData := false } ∧
    (callLogTraccarApi s d o).2.2 = some d ∧
    ∃ m, (callLogTraccarApi s d o).2.1 = [m] ∧ m.isTerminal = true ∧ m.isStatus = false := by
  cases o with
  | response r =>
    by_cases hr : (r.ok && r.success) = true
    · simp [callLogTraccarApi, deliveryBegin, deliveryComplete, h, hr, Msg.isTerminal, Msg.isStatus]
    · simp [callLogTraccarApi, deliveryBegin, deliveryComplete, h, hr, Msg.isTerminal, Msg.isStatus]
  | networkError m =>
    simp [callLogTraccarApi, deliveryBegin, deliveryComplete, h, Msg.isTerminal, Msg.isStatus]

/-- A fix arriving strictly inside the throttle window is a complete
no-op. -/
lemma handlePositionUpdate_throttled (s : SWState) (p : Position) (t : Int) (o : FetchOutcome)
    (h : t - s.lastAttemptedSendTimestamp < s.config.intervalSeconds * 1000) :
    handlePositionUpdate s p t o = (s, [], none) := by
  by_cases h1 : s.isCurrentlyTracking = false ∨ s.config.deviceId = "" ∨ s.config.serverUrl = ""
  · simp [handlePositionUpdate, h1]
  · simp [handlePositionUpdate, h1, h]

/-- When a position update actually issues a fetch, all the guards were
open and the resulting state is the input state with the attempt
timestamp stamped to now and the semaphore cleared. -/
lemma handlePositionUpdate_attempt_inv (s : SWState) (p : Position) (t : Int) (o : FetchOutcome)
    (h : ((handlePositionUpdate s p t o).2.2).isSome = true) :
    s.isSendingLocationData = false ∧
    s.isCurrentlyTracking = true ∧
    s.config.intervalSeconds * 1000 ≤ t - s.lastAttemptedSendTimestamp ∧
    (handlePositionUpdate s p t o).1
      = { s with lastAttemptedSendTimestamp := t, isSendingLocationData := false } := by
  by_cases h1 : s.isCurrentlyTracking = false ∨ s.config.deviceId = "" ∨ s.config.serverUrl = ""
  · simp [handlePositionUpdate, h1] at h
  · by_cases h2 : t - s.lastAttemptedSendTimestamp < s.config.intervalSeconds * 1000
    · simp [handlePositionUpdate, h1, h2] at h
    · by_cases h3 : s.isSendingLocationData = true
      · have := callLogTraccarApi_skip { s with lastAttemptedSendTimestamp := t }
          (buildDataToSend { s with lastAttemptedSendTimestamp := t }.config p) o (by simpa using h3)
        simp [handlePositionUpdate, h1, h2, this] at h
      · have h3f : s.isSendingLocationData = false := by
          cases hb : s.isSendingLocationData
          · rfl
          · exact absurd hb h3
        have hrun := callLogTraccarApi_run { s with lastAttemptedSendTimestamp := t }
          (buildDataToSend { s with lastAttemptedSendTimestamp := t }.config p) o (by simpa using h3f)
        refine ⟨h3f, ?_, le_of_not_lt h2, ?_⟩
        · rcases Bool.eq_false_or_eq_true s.isCurrentlyTracking with hc | hc
          · exact hc
          · exact absurd (Or.inl hc) h1
        · have : (handlePositionUpdate s p t o).1
              = (callLogTraccarApi { s with lastAttemptedSendTimestamp := t }
                  (buildDataToSend { s with lastAttemptedSendTimestamp := t }.config p) o).1 := by
            simp [handlePositionUpdate, h1, h2]
          rw [this, hrun.1]

/-!
Claim theorems for the delivery guard, the throttle and the dead
attempting-delivery status.
-/

/-- C1: while isSendingLocationData is true no second delivery call to the
relay endpoint begins — the guarded call returns with no fetch, no state
change and no message — and a position update whose delivery is skipped by
the in-flight guard produces no status, success or error message at
all. -/
theorem c1_inflight_guard :
    (∀ (s : SWState) (d : LocationData) (o : FetchOutcome),
       s.isSendingLocationData = true → callLogTraccarApi s d o = (s, [], none)) ∧
    (∀ (s : SWState) (pos : Position) (now : Int) (o : FetchOutcome),
       s.isSendingLocationData = true →
       (handlePositionUpdate s pos now o).2.1 = [] ∧
       (handlePositionUpdate s pos now o).2.2 = none) := by
  constructor
  · intro s d o h
    exact callLogTraccarApi_skip s d o h
  · intro s pos now o h
    by_cases h1 : s.isCurrentlyTracking = false ∨ s.config.deviceId = "" ∨ s.config.serverUrl = ""
    · simp [handlePositionUpdate, h1]
    · by_cases h2 : now - s.lastAttemptedSendTimestamp < s.config.intervalSeconds * 1000
      · simp [handlePositionUpdate, h1, h2]
      · have := callLogTraccarApi_skip { s with lastAttemptedSendTimestamp := now }
          (buildDataToSend { s with lastAttemptedSendTimestamp := now }.config pos) o (by simpa using h)
        simp [handlePositionUpdate, h1, h2, this]

/-- Witness for c1_inflight_guard at a concrete in-flight state. -/
theorem c1_inflight_guard_witness :
    callLogTraccarApi
      ⟨some 0, ⟨"dev1", "http://example.com:5055", 10⟩, true, 0, true⟩
      ⟨"http://example.com:5055", "dev1", 1, 2, 3, none, none, none, none⟩
      (FetchOutcome.networkError "boom")
      = (⟨some 0, ⟨"dev1", "http://example.com:5055", 10⟩, true, 0, true⟩, [], none) :=
  c1_inflight_guard.1 _ _ _ rfl

/-- C2: two consecutive delivery attempts issued by the worker are at
least intervalSeconds * 1000 milliseconds apart; a fix arriving strictly
inside the throttle window is a complete no-op; and a start command that
actually starts (geolocation supported, no watch already active) resets
lastAttemptedSendTimestamp to 0 so that the next fix can fire
immediately. -/
theorem c2_throttle_invariant :
    (∀ (s : SWState) (p1 : Position) (t1 : Int) (o1 : FetchOutcome)
       (p2 : Position) (t2 : Int) (o2 : FetchOutcome),
       ((handlePositionUpdate s p1 t1 o1).2.2).isSome = true →
       ((handlePositionUpdate (handlePositionUpdate s p1 t1 o1).1 p2 t2 o2).2.2).isSome = true →
       s.config.intervalSeconds * 1000 ≤ t2 - t1) ∧
    (∀ (s : SWState) (p : Position) (t : Int) (o : FetchOutcome),
       t - s.lastAttemptedSendTimestamp < s.config.intervalSeconds * 1000 →
       handlePositionUpdate s p t o = (s, [], none)) ∧
    (∀ (env : GeoEnv) (s : SWState) (d : ConfigPatch),
       env.geolocationSupported = true → s.watchId = none →
       (handleMessage env s (Command.startTracking d)).1.lastAttemptedSendTimestamp = 0) := by
  refine ⟨?_, ?_, ?_⟩
  · intro s p1 t1 o1 p2 t2 o2 h1 h2
    have inv1 := handlePositionUpdate_attempt_inv s p1 t1 o1 h1
    rw [inv1.2.2.2] at h2
    have inv2 := handlePositionUpdate_attempt_inv _ p2 t2 o2 h2
    have hle := inv2.2.2.1
    simpa using hle
  · intro s p t o h
    exact handlePositionUpdate_throttled s p t o h
  · intro env s d hsup hw
    cases hperm : env.permission <;>
      simp [handleMessage, startTrackingLogic, hsup, hw, hperm]

/-- Witness for c2_throttle_invariant: a concrete run where the first
attempt fires at t=100000, the second at t=200000, with a 10 second
interval. -/
theorem c2_throttle_invariant_witness :
    (10 : Int) * 1000 ≤ (200000 : Int) - 100000 ∧
    handlePositionUpdate ⟨none, ⟨"dev1", "http://example.com:5055", 10⟩, true, 0, false⟩
      ⟨⟨1, 2, none, none, none, none⟩, 0⟩ 5000 (FetchOutcome.networkError "x")
      = (⟨none, ⟨"dev1", "http://example.com:5055", 10⟩, true, 0, false⟩, [], none) ∧
    (handleMessage ⟨true, PermissionState.granted, 7⟩
      ⟨none, ⟨"dev1", "http://example.com:5055", 10⟩, false, 123456, false⟩
      (Command.startTracking ⟨none, none, none⟩)).1.lastAttemptedSendTimestamp = 0 :=
  ⟨c2_throttle_invariant.1
      ⟨none, ⟨"dev1", "http://example.com:5055", 10⟩, true, 0, false⟩
      ⟨⟨1, 2, none, none, none, none⟩, 0⟩ 100000 (FetchOutcome.response ⟨true, 200, true, none⟩)
      ⟨⟨1, 2, none, none, none, none⟩, 0⟩ 200000 (FetchOutcome.response ⟨true, 200, true, none⟩)
      (by decide) (by decide),
   c2_throttle_invariant.2.1 _ _ _ _ (by decide),
   c2_throttle_invariant.2.2 _ _ _ rfl rfl⟩

/-- C3 counterexample: a delivery invocation that passes the in-flight
guard at a concrete state posts no status-typed message at all — the
attempting-delivery status emission is commented out in the source — so
the claim that it emits an attempting-delivery status message is false. -/
theorem c3_counterexample_no_attempting_status :
    (⟨none, ⟨"dev1", "http://example.com:5055", 10⟩, true, 0, false⟩ : SWState).isSendingLocationData
      = false ∧
    (callLogTraccarApi ⟨none, ⟨"dev1", "http://example.com:5055", 10⟩, true, 0, false⟩
       ⟨"http://example.com:5055", "dev1", 1, 2, 3, none, none, none, none⟩
       (FetchOutcome.response ⟨true, 200, true, none⟩)).2.2
      = some ⟨"http://example.com:5055", "dev1", 1, 2, 3, none, none, none, none⟩ ∧
    ((callLogTraccarApi ⟨none, ⟨"dev1", "http://example.com:5055", 10⟩, true, 0, false⟩
       ⟨"http://example.com:5055", "dev1", 1, 2, 3, none, none, none, none⟩
       (FetchOutcome.response ⟨true, 200, true, none⟩)).2.1).filter Msg.isStatus = [] := by
  refine ⟨rfl, rfl, rfl⟩

/-- C3 amended: for every delivery invocation that passes the in-flight
guard, the worker raises isSendingLocationData, issues the relay call, and
on every completion path (success, failure response or thrown error)
clears isSendingLocationData and posts exactly one terminal message of
type success or error — but no attempting-delivery status message is
posted, that emission being commented out. -/
theorem c3_delivery_completion (s : SWState) (d : LocationData) (o : FetchOutcome)
    (h : s.isSendingLocationData = false) :
    (deliveryBegin s).2 = true ∧
    ((deliveryBegin s).1).isSendingLocationData = true ∧
    (callLogTraccarApi s d o).2.2 = some d ∧
    (callLogTraccarApi s d o).1.isSendingLocationData = false ∧
    ∃ m, (callLogTraccarApi s d o).2.1 = [m] ∧ m.isTerminal = true ∧ m.isStatus = false := by
  have hrun := callLogTraccarApi_run s d o h
  refine ⟨by simp [deliveryBegin, h], by simp [deliveryBegin, h], hrun.2.1, ?_, hrun.2.2⟩
  rw [hrun.1]

/-- Witness for c3_delivery_completion at a concrete state and a thrown
network error. -/
theorem c3_delivery_completion_witness :
    ∃ m, (callLogTraccarApi ⟨none, ⟨"dev1", "http://example.com:5055", 10⟩, true, 0, false⟩
       ⟨"http://example.com:5055", "dev1", 1, 2, 3, none, none, none, none⟩
       (FetchOutcome.networkError "fetch failed")).2.1 = [m]
      ∧ m.isTerminal = true ∧ m.isStatus = false :=
  (c3_delivery_completion ⟨none, ⟨"dev1", "http://example.com:5055", 10⟩, true, 0, false⟩
    ⟨"http://example.com:5055", "dev1", 1, 2, 3, none, none, none, none⟩
    (FetchOutcome.networkError "fetch failed") rfl).2.2.2.2

/-- C9: a fix processed while tracking, with complete configuration and
the throttle window elapsed, stamps lastAttemptedSendTimestamp to now
before the in-flight guard is consulted — so when a delivery is in flight
the sample is dropped with no fetch and no message, yet the throttle
window restarts, and a further fix arriving within a full interval of the
dropped one is a no-op. -/
theorem c9_dropped_sample_restarts_throttle (s : SWState) (p : Position) (t : Int)
    (o : FetchOutcome) (p2 : Position) (t2 : Int) (o2 : FetchOutcome)
    (htrack : s.isCurrentlyTracking = true)
    (hdev : s.config.deviceId ≠ "")
    (hurl : s.config.serverUrl ≠ "")
    (helapsed : s.config.intervalSeconds * 1000 ≤ t - s.lastAttemptedSendTimestamp)
    (hbusy : s.isSendingLocationData = true) :
    handlePositionUpdate s p t o = ({ s with lastAttemptedSendTimestamp := t }, [], none) ∧
    (t2 - t < s.config.intervalSeconds * 1000 →
      handlePositionUpdate { s with lastAttemptedSendTimestamp := t } p2 t2 o2
        = ({ s with lastAttemptedSendTimestamp := t }, [], none)) := by
  constructor
  · have h1 : ¬(s.isCurrentlyTracking = false ∨ s.config.deviceId = "" ∨ s.config.serverUrl = "") := by
      simp [htrack, hdev, hurl]
    have h2 : ¬(t - s.lastAttemptedSendTimestamp < s.config.intervalSeconds * 1000) :=
      not_lt.mpr helapsed
    have hskip := callLogTraccarApi_skip { s with lastAttemptedSendTimestamp := t }
      (buildDataToSend { s with lastAttemptedSendTimestamp := t }.config p) o (by simpa using hbusy)
    simp [handlePositionUpdate, h1, h2, hskip]
  · intro hwin
    exact handlePositionUpdate_throttled _ p2 t2 o2 (by simpa using hwin)

/-- Witness for c9_dropped_sample_restarts_throttle at a concrete busy
state. -/
theorem c9_dropped_sample_restarts_throttle_witness :
    handlePositionUpdate ⟨some 4, ⟨"dev1", "http://example.com:5055", 10⟩, true, 0, true⟩
      ⟨⟨1, 2, none, none, none, none⟩, 0⟩ 50000 (FetchOutcome.networkError "x")
      = (⟨some 4, ⟨"dev1", "http://example.com:5055", 10⟩, true, 50000, true⟩, [], none) ∧
    handlePositionUpdate ⟨some 4, ⟨"dev1", "http://example.com:5055", 10⟩, true, 50000, true⟩
      ⟨⟨1, 2, none, none, none, none⟩, 0⟩ 55000 (FetchOutcome.networkError "x")
      = (⟨some 4, ⟨"dev1", "http://example.com:5055", 10⟩, true, 50000, true⟩, [], none) := by
  have h := c9_dropped_sample_restarts_throttle
    ⟨some 4, ⟨"dev1", "http://example.com:5055", 10⟩, true, 0, true⟩
    ⟨⟨1, 2, none, none, none, none⟩, 0⟩ 50000 (FetchOutcome.networkError "x")
    ⟨⟨1, 2, none, none, none, none⟩, 0⟩ 55000 (FetchOutcome.networkError "x")
    rfl (by decide) (by decide) (by decide) rfl
  exact ⟨h.1, h.2 (by decide)⟩

/-!
Claim theorems for the start command, sensor errors and the page-side
configuration gate.
-/

/-- C5 counterexample: a start command received while a watch is already
active (watchId non-null) merges the configuration but returns from
startTrackingLogic early — lastAttemptedSendTimestamp is not reset to 0
and no tracking-state message is emitted — so the claim that every start
command resets the timestamp and emits tracking-state=true is false. -/
theorem c5_counterexample_start_while_active :
    (handleMessage ⟨true, PermissionState.granted, 2⟩
       ⟨some 1, ⟨"dev1", "http://example.com:5055", 10⟩, true, 5000, false⟩
       (Command.startTracking ⟨some "dev2", some "http://other.example:5055", some 5⟩)).1.lastAttemptedSendTimestamp
      = 5000 ∧
    (handleMessage ⟨true, PermissionState.granted, 2⟩
       ⟨some 1, ⟨"dev1", "http://example.com:5055", 10⟩, true, 5000, false⟩
       (Command.startTracking ⟨some "dev2", some "http://other.example:5055", some 5⟩)).2
      = [] := ⟨rfl, rfl⟩

/-- C5 amended: every start command merges the carried configuration
fields into the stored configuration (full replacement when all three are
carried); when geolocation is supported, no watch is already active and
permission is granted, the worker additionally sets isCurrentlyTracking
to true, resets lastAttemptedSendTimestamp to 0, starts the watch and
emits tracking-state=true. -/
theorem c5_start_command :
    (∀ (env : GeoEnv) (s : SWState) (d : ConfigPatch),
       (handleMessage env s (Command.startTracking d)).1.config = mergeConfig s.config d) ∧
    (∀ (env : GeoEnv) (s : SWState) (d : ConfigPatch),
       env.geolocationSupported = true → s.watchId = none →
       env.permission = PermissionState.granted →
       handleMessage env s (Command.startTracking d)
         = ({ s with
              config := mergeConfig s.config d
              isCurrentlyTracking := true
              lastAttemptedSendTimestamp := 0
              watchId := some env.freshWatchId },
            [Msg.trackingStatus true "[SW] Rastreamento em segundo plano iniciado."])) := by
  constructor
  · intro env s d
    by_cases hsup : env.geolocationSupported = false
    · simp [handleMessage, startTrackingLogic, hsup]
    · by_cases hw : (s.watchId).isSome
      · simp [handleMessage, startTrackingLogic, hsup, hw]
      · cases hperm : env.permission <;>
          simp [handleMessage, startTrackingLogic, hsup, hw, hperm]
  · intro env s d hsup hw hperm
    simp [handleMessage, startTrackingLogic, hsup, hw, hperm]

/-- Witness for c5_start_command at a concrete idle state and full
configuration patch. -/
theorem c5_start_command_witness :
    handleMessage ⟨true, PermissionState.granted, 3⟩
      ⟨none, ⟨"", "", 10⟩, false, 777, false⟩
      (Command.startTracking ⟨some "dev1", some "http://example.com:5055", some 5⟩)
      = (⟨some 3, ⟨"dev1", "http://example.com:5055", 5⟩, true, 0, false⟩,
         [Msg.trackingStatus true "[SW] Rastreamento em segundo plano iniciado."]) := by
  have h := c5_start_command.2 ⟨true, PermissionState.granted, 3⟩
    ⟨none, ⟨"", "", 10⟩, false, 777, false⟩
    ⟨some "dev1", some "http://example.com:5055", some 5⟩ rfl rfl rfl
  simpa [mergeConfig] using h

/-- C6: a permission-denied sensor error (code 1) performs exactly one
stop transition — isCurrentlyTracking becomes false, the watch
subscription is cleared, the semaphore reset — and broadcasts exactly one
tracking_status message, with isTracking false, followed by the error
message; position-unavailable (2) and timeout (3) leave the state (hence
the tracking flag and the watch subscription) untouched and post only an
error message. -/
theorem c6_sensor_error_policy :
    (∀ (s : SWState) (m : String),
       handlePositionError s 1 m
         = ({ s with watchId := none, isCurrentlyTracking := false, isSendingLocationData := false },
            [Msg.trackingStatus false "[SW] Rastreamento em segundo plano interrompido.",
             Msg.error "[SW] Permissão de localização negada. O rastreamento em segundo plano será interrompido."])) ∧
    (∀ (s : SWState) (m : String),
       handlePositionError s 2 m
         = (s, [Msg.error "[SW] Posição GPS temporariamente indisponível."]) ∧
       handlePositionError s 3 m
         = (s, [Msg.error "[SW] Tempo esgotado ao tentar obter a localização GPS."])) := by
  constructor
  · intro s m
    simp [handlePositionError, stopTrackingLogic]
  · intro s m
    constructor <;> simp [handlePositionError]

/-- C4: a start attempt whose configuration has an empty (or blank) device
id, an invalid server URL, or a missing or sub-1 interval sends no command
to the worker at all — the errors are detected in the page before the
worker is contacted — and consequently no tracking_status message with
isTracking true (indeed no message at all) is produced by the worker for
that attempt. -/
theorem c4_config_gate (p : PageState) (geoSupported : Bool) (perm : PagePermission)
    (pos0 : Position) (env : GeoEnv) (s : SWState)
    (h : trimStr p.deviceId = "" ∨ isValidHttpUrl p.serverUrl = false ∨
         p.intervalSeconds = none ∨ (∃ n, p.intervalSeconds = some n ∧ n < 1)) :
    handleStartTracking p geoSupported perm pos0 = [] ∧
    processCommands env s (handleStartTracking p geoSupported perm pos0) = (s, []) := by
  have herr : pageStartHasError p = true := by
    rcases h with h | h | h | ⟨n, hn, hlt⟩
    · simp [pageStartHasError, h]
    · simp [pageStartHasError, h]
    · simp [pageStartHasError, h]
    · simp [pageStartHasError, hn, hlt]
  have hempty : handleStartTracking p geoSupported perm pos0 = [] := by
    simp [handleStartTracking, herr]
  exact ⟨hempty, by rw [hempty]; rfl⟩

/-- Witness for c4_config_gate: a concrete configuration with a malformed
server URL produces no command and no worker message. -/
theorem c4_config_gate_witness :
    handleStartTracking ⟨"dev1", "not-a-url", some 10, true⟩ true PagePermission.granted
      ⟨⟨1, 2, none, none, none, none⟩, 0⟩ = [] ∧
    processCommands ⟨true, PermissionState.granted, 1⟩
      ⟨none, ⟨"", "", 10⟩, false, 0, false⟩
      (handleStartTracking ⟨"dev1", "not-a-url", some 10, true⟩ true PagePermission.granted
        ⟨⟨1, 2, none, none, none, none⟩, 0⟩)
      = (⟨none, ⟨"", "", 10⟩, false, 0, false⟩, []) :=
  c4_config_gate ⟨"dev1", "not-a-url", some 10, true⟩ true PagePermission.granted
    ⟨⟨1, 2, none, none, none, none⟩, 0⟩ ⟨true, PermissionState.granted, 1⟩
    ⟨none, ⟨"", "", 10⟩, false, 0, false⟩ (Or.inr (Or.inl (by decide)))

/-!
Helper lemmas for the persistence round trip.
-/

/-- Digit characters produced by decimalRepr are digit characters and
parse back to the digit they encode. -/
lemma digitChar10_spec (d : Nat) (h : d < 10) :
    isDigitChar (digitChar10 d) = true ∧ digitVal (digitChar10 d) = d := by
  interval_cases d <;> exact ⟨rfl, rfl⟩

/-- A string whose character list is nonempty is not the empty string. -/
lemma stringMk_ne_empty (l : List Char) (h : l ≠ []) : String.mk l ≠ "" := by
  intro hc
  exact h (congrArg String.data hc)

/-- decimalRepr of a nonzero number is a nonempty string. -/
lemma decimalRepr_ne_empty (m : Nat) (h : m ≠ 0) : decimalRepr m ≠ "" := by
  apply stringMk_ne_empty
  simp [Nat.digits_ne_nil_iff_ne_zero.mpr h]

/-- Parsing inverts decimal rendering on nonzero naturals. -/
lemma decimalRepr_roundtrip (m : Nat) (h : m ≠ 0) :
    parseIntJS (decimalRepr m) = some m := by
  have hall : ∀ c ∈ ((Nat.digits 10 m).map digitChar10).reverse, isDigitChar c = true := by
    intro c hc
    rw [List.mem_reverse, List.mem_map] at hc
    obtain ⟨d, hd, rfl⟩ := hc
    exact (digitChar10_spec d (Nat.digits_lt_base (by norm_num) hd)).1
  have htake : (((Nat.digits 10 m).map digitChar10).reverse).takeWhile isDigitChar
      = ((Nat.digits 10 m).map digitChar10).reverse :=
    List.takeWhile_eq_self_iff.mpr hall
  have hne : ((Nat.digits 10 m).map digitChar10).reverse ≠ [] := by
    simp [Nat.digits_ne_nil_iff_ne_zero.mpr h]
  have hmap : ((((Nat.digits 10 m).map digitChar10).reverse).map digitVal).reverse
      = Nat.digits 10 m := by
    rw [List.map_reverse, List.reverse_reverse, List.map_map]
    have : ∀ d ∈ Nat.digits 10 m, (digitVal ∘ digitChar10) d = id d := by
      intro d hd
      exact (digitChar10_spec d (Nat.digits_lt_base (by norm_num) hd)).2
    rw [List.map_congr_left this, List.map_id]
  show parseIntJS (String.mk (((Nat.digits 10 m).map digitChar10).reverse)) = some m
  unfold parseIntJS
  have htl : (String.mk (((Nat.digits 10 m).map digitChar10).reverse)).toList
      = ((Nat.digits 10 m).map digitChar10).reverse := rfl
  simp only [htl, htake, hmap, List.isEmpty_iff]
  rw [if_neg hne, Nat.ofDigits_digits]

/-- A string whose trimmed form is empty is not a valid http url. -/
lemma isValidHttpUrl_of_trim_empty (v : String) (hv : trimStr v = "") :
    isValidHttpUrl v = false := by
  unfold isValidHttpUrl
  rw [hv]
  decide

/-- A valid http url has a nonempty trimmed form and is itself
nonempty. -/
lemma isValidHttpUrl_ne_empty (u : String) (h : isValidHttpUrl u = true) :
    trimStr u ≠ "" ∧ u ≠ "" := by
  have h1 : trimStr u ≠ "" := by
    intro hc
    rw [isValidHttpUrl_of_trim_empty u hc] at h
    cases h
  refine ⟨h1, ?_⟩
  intro hc
  apply h1
  rw [hc]
  rfl

/-- C8: saving a configuration whose three fields are valid (nonblank
device id, valid http/https server URL, integer interval at least 1) and
loading it back yields the same configuration; and saving a configuration
with an invalid server URL leaves the previously persisted server URL
entry unchanged. -/
theorem c8_persistence_roundtrip :
    (∀ (cfg : PageConfig) (st : StoredSettings) (n : Int),
       trimStr cfg.deviceId ≠ "" → isValidHttpUrl cfg.serverUrl = true →
       cfg.intervalSeconds = some n → 1 ≤ n →
       (loadSettings (saveSettings cfg st)).1 = cfg) ∧
    (∀ (cfg : PageConfig) (st : StoredSettings),
       isValidHttpUrl cfg.serverUrl = false →
       (saveSettings cfg st).traccarServerUrl = st.traccarServerUrl) := by
  constructor
  · intro cfg st n hdev hurl hint hge
    obtain ⟨dev, url, iv⟩ := cfg
    simp only at hdev hurl hint
    subst hint
    have hu := isValidHttpUrl_ne_empty url hurl
    have hdne : dev ≠ "" := by
      intro hc
      apply hdev
      rw [hc]
      rfl
    have hnn : n.toNat ≠ 0 := by omega
    have hrep := decimalRepr_roundtrip n.toNat hnn
    have hrepne := decimalRepr_ne_empty n.toNat hnn
    have hone : 1 ≤ n.toNat := by omega
    have hcast : ((n.toNat : Int)) = n := Int.toNat_of_nonneg (by omega)
    simp [saveSettings, loadSettings, hdev, hdne, hurl, hu.1, hu.2, hge,
      hrep, hrepne, hone, hcast]
  · intro cfg st hurl
    obtain ⟨dev, url, iv⟩ := cfg
    simp only at hurl
    cases iv with
    | none => simp only [saveSettings, hurl]; split_ifs <;> simp_all
    | some n =>
      simp only [saveSettings, hurl]
      split_ifs <;> simp_all

/-- Witness for c8_persistence_roundtrip at a concrete valid
configuration over an empty store. -/
theorem c8_persistence_roundtrip_witness :
    (loadSettings (saveSettings ⟨"dev1", "http://example.com:5055", some 7⟩ ⟨none, none, none⟩)).1
      = ⟨"dev1", "http://example.com:5055", some 7⟩ :=
  c8_persistence_roundtrip.1 ⟨"dev1", "http://example.com:5055", some 7⟩ ⟨none, none, none⟩ 7
    (by decide) (by decide) rfl (by decide)

/-!
Helper lemmas and claim theorems for the server action and the API
route.
-/

/-- Appending to a nonempty string yields a nonempty string. -/
lemma str_append_ne_empty (a b : String) (ha : a ≠ "") : a ++ b ≠ "" := by
  obtain ⟨la⟩ := a
  obtain ⟨lb⟩ := b
  intro h
  apply ha
  have hd : la ++ lb = [] := congrArg String.data h
  have h2 : la = [] := (List.append_eq_nil.mp hd).1
  rw [h2]

/-- Every connection-error message built by the catch block is
nonempty. -/
lemma connMessage_ne_empty (u : UrlParts) (code causeMessage : String) :
    connMessage u code causeMessage ≠ "" := by
  unfold connMessage
  split_ifs <;>
    (repeat' apply str_append_ne_empty) <;> decide

/-- C10: sendTraccarData is total by construction (it is a Lean function
into ActionResult) and: every unsuccessful result carries a nonempty
message; a validation failure (schema error, unparsable URL, or
non-http/https protocol) issues no upstream fetch and returns
success=false; and a successful result can only arise from an ok upstream
response on valid input. -/
theorem c10_action_totality (input : TraccarInput) (o : UpstreamOutcome) :
    ((sendTraccarData input o).1.success = false →
      ∃ m, (sendTraccarData input o).1.message = some m ∧ m ≠ "") ∧
    (actionValidationFails input = true →
      (sendTraccarData input o).2 = false ∧ (sendTraccarData input o).1.success = false) ∧
    ((sendTraccarData input o).1.success = true →
      actionValidationFails input = false ∧ ∃ st, o = UpstreamOutcome.ok st) := by
  by_cases hs : schemaErrors input = []
  · cases hp : parseUrlModel input.serverUrl with
    | none =>
      refine ⟨?_, ?_, ?_⟩ <;>
        simp [sendTraccarData, actionValidationFails, hs, hp]
      repeat' apply str_append_ne_empty
      decide
    | some u =>
      by_cases hproto : (u.protocol = "http:" ∨ u.protocol = "https:")
      · have hproto' : (decide (u.protocol = "http:") || decide (u.protocol = "https:")) = true := by
          rcases hproto with h | h <;> simp [h]
        cases o with
        | ok st =>
          refine ⟨?_, ?_, ?_⟩ <;>
            simp [sendTraccarData, actionValidationFails, hs, hp, hproto']
        | httpError st stText body =>
          refine ⟨?_, ?_, ?_⟩ <;>
            simp [sendTraccarData, actionValidationFails, hs, hp, hproto']
          repeat' apply str_append_ne_empty
          decide
        | abortTimeout =>
          refine ⟨?_, ?_, ?_⟩ <;>
            simp [sendTraccarData, actionValidationFails, hs, hp, hproto']
          repeat' apply str_append_ne_empty
          decide
        | connError code causeMessage =>
          refine ⟨?_, ?_, ?_⟩ <;>
            simp [sendTraccarData, actionValidationFails, hs, hp, hproto']
          exact connMessage_ne_empty u code causeMessage
        | genericError m =>
          refine ⟨?_, ?_, ?_⟩ <;>
            simp [sendTraccarData, actionValidationFails, hs, hp, hproto']
          repeat' apply str_append_ne_empty
          decide
      · have hproto' : (decide (u.protocol = "http:") || decide (u.protocol = "https:")) = false := by
          simp only [Bool.or_eq_false_iff, decide_eq_false_iff_not]
          exact ⟨fun h => hproto (Or.inl h), fun h => hproto (Or.inr h)⟩
        refine ⟨?_, ?_, ?_⟩ <;>
          simp [sendTraccarData, actionValidationFails, hs, hp, hproto', hproto]
        repeat' apply str_append_ne_empty
        decide
  · refine ⟨?_, ?_, ?_⟩ <;>
      simp [sendTraccarData, actionValidationFails, hs]
    repeat' apply str_append_ne_empty
    decide

/-- Witness for c10_action_totality at a concrete schema-invalid input. -/
theorem c10_action_totality_witness :
    (sendTraccarData ⟨"notaurl", "", 0, 0, 0, none, none, none, none⟩
      (UpstreamOutcome.ok 200)).2 = false ∧
    (sendTraccarData ⟨"notaurl", "", 0, 0, 0, none, none, none, none⟩
      (UpstreamOutcome.ok 200)).1.success = false :=
  (c10_action_totality ⟨"notaurl", "", 0, 0, 0, none, none, none, none⟩
    (UpstreamOutcome.ok 200)).2.1 (by decide)

/-- C7 (code evaluation at the failing input): for a valid body, an
upstream timeout makes the route return HTTP 500, not the 504 its own
classification comment intends — the 504 branch sits behind a guard the
timeout message cannot satisfy — while validation still maps to 400,
success to 200, and an upstream 5xx maps to 502 only when the upstream
statusText is empty (so the message carries a three-digit code) and to
500 otherwise. -/
theorem c7_route_status_codes :
    (routePOST (some ⟨"http://example.com:5055", "dev1", 0, 0, 0, none, none, none, none⟩)
      UpstreamOutcome.abortTimeout).1 = 500 ∧
    (routePOST (some ⟨"http://example.com:5055", "dev1", 0, 0, 0, none, none, none, none⟩)
      UpstreamOutcome.abortTimeout).1 ≠ 504 ∧
    (routePOST (some ⟨"http://example.com:5055", "dev1", 0, 0, 0, none, none, none, none⟩)
      (UpstreamOutcome.ok 200)).1 = 200 ∧
    (routePOST (some ⟨"http://example.com:5055", "", 0, 0, 0, none, none, none, none⟩)
      (UpstreamOutcome.ok 200)).1 = 400 ∧
    (routePOST (some ⟨"http://example.com:5055", "dev1", 0, 0, 0, none, none, none, none⟩)
      (UpstreamOutcome.httpError 502 "" "Bad Gateway")).1 = 502 ∧
    (routePOST (some ⟨"http://example.com:5055", "dev1", 0, 0, 0, none, none, none, none⟩)
      (UpstreamOutcome.httpError 500 "Internal Server Error" "oops")).1 = 500 := by
  set_option maxRecDepth 20000 in refine ⟨by decide, by decide, by decide, by decide, by decide, by decide⟩
